import Mathlib

/-!
Shallow embedding of the cutline timeline-editing core.

Millisecond quantities and pixel quantities are modelled as rationals
(JS numbers); `Math.round` is modelled as `⌊x + 1/2⌋`, which agrees with
JavaScript's `Math.round` on all inputs.  Records (`Record<string, Clip>`)
are modelled as association lists in insertion order, which is also the
iteration order of `Object.entries` and of a JS `Set`.
-/

namespace Cutline

/-- JavaScript `Math.round`: rounds half-way cases up, i.e. `⌊x + 1/2⌋`. -/
def jround (q : ℚ) : ℤ := ⌊q + 1 / 2⌋

/-- A timeline clip, as used by the view components and the view-store tests
(`clipId`, `assetId`, `trackId`, `startMs`, `durationMs`, `inMs`, `outMs`). -/
structure Clip where
  clipId : String
  assetId : String
  trackId : String
  startMs : ℚ
  durationMs : ℚ
  inMs : ℚ
  outMs : ℚ
deriving DecidableEq, Repr

/-- `Record<string, Clip>` in entry-insertion order. -/
abbrev ClipMap := List (String × Clip)

/-- JS object property access `clips[cid]` (may be absent). -/
def lookupClip (clips : ClipMap) (cid : String) : Option Clip :=
  (clips.find? (fun e => e.1 = cid)).map (fun e => e.2)

/-- A timeline marker (`markerId`, `tMs`, `label`). -/
structure Marker where
  markerId : String
  tMs : ℚ
  label : String
deriving DecidableEq, Repr

inductive TrackType where
  | video
  | audio
  | text
deriving DecidableEq, Repr

/-- A track: ordered clip ids of one media kind. -/
structure Track where
  trackId : String
  type : TrackType
  name : String
  clipIds : List String
deriving DecidableEq, Repr

/-- `timeline.tracks.find(t => t.type === "video")` — the designated video track. -/
def findVideoTrack (tracks : List Track) : Option Track :=
  tracks.find? (fun t => t.type = TrackType.video)

-- ============================================================
-- Geometry (src/store/timelineViewStore.ts)
-- ============================================================

/-- `msToPixels(ms, zoomLevel) = ms / 1000 * zoomLevel`. -/
def msToPixels (ms zoomLevel : ℚ) : ℚ := ms / 1000 * zoomLevel

/-- `pixelsToMs(px, zoomLevel) = px / zoomLevel * 1000`. -/
def pixelsToMs (px zoomLevel : ℚ) : ℚ := px / zoomLevel * 1000

-- ============================================================
-- View-interaction store (src/store/timelineViewStore.ts, multi-select variant)
-- ============================================================

/-- The view-interaction state: playhead, play flag, zoom, scroll, selection.
The JS `Set<string>` selection is modelled as its insertion-ordered id list. -/
structure ViewState where
  playheadMs : ℚ
  isPlaying : Bool
  zoomLevel : ℚ
  scrollLeftMs : ℚ
  selectedClipIds : List String
deriving DecidableEq, Repr

/-- The store's initial state. -/
def initViewState : ViewState :=
  { playheadMs := 0, isPlaying := false, zoomLevel := 100
    scrollLeftMs := 0, selectedClipIds := [] }

/-- `setPlayhead: (ms) => set({ playheadMs: Math.max(0, Math.round(ms)) })`. -/
def setPlayhead (s : ViewState) (ms : ℚ) : ViewState :=
  { s with playheadMs := ((max 0 (jround ms) : ℤ) : ℚ) }

/-- `play: () => set({ isPlaying: true })`. -/
def play (s : ViewState) : ViewState := { s with isPlaying := true }

/-- `pause: () => set({ isPlaying: false })`. -/
def pause (s : ViewState) : ViewState := { s with isPlaying := false }

/-- `togglePlay: () => set((s) => ({ isPlaying: !s.isPlaying }))`. -/
def togglePlay (s : ViewState) : ViewState := { s with isPlaying := !s.isPlaying }

/-- `setZoom: (level) => set({ zoomLevel: level })`. -/
def setZoom (s : ViewState) (level : ℚ) : ViewState := { s with zoomLevel := level }

/-- `setScroll: (ms) => set({ scrollLeftMs: Math.max(0, ms) })`. -/
def setScroll (s : ViewState) (ms : ℚ) : ViewState :=
  { s with scrollLeftMs := max 0 ms }

/-- `selectClip(clipId | null)`: replace the selection with one clip or clear. -/
def selectClipAct (s : ViewState) (clipId : Option String) : ViewState :=
  { s with selectedClipIds := match clipId with
      | some cid => [cid]
      | none => [] }

/-- `toggleClip(clipId)`: toggle membership of one id in the selection set. -/
def toggleClipAct (s : ViewState) (cid : String) : ViewState :=
  { s with selectedClipIds :=
      if cid ∈ s.selectedClipIds then
        s.selectedClipIds.filter (fun x => x ≠ cid)
      else
        s.selectedClipIds ++ [cid] }

/-- `selectClips(clipIds)`: replace the selection with the given ids. -/
def selectClipsAct (s : ViewState) (clipIds : List String) : ViewState :=
  { s with selectedClipIds := clipIds }

/-- `addClips(clipIds)`: union the given ids into the selection. -/
def addClipsAct (s : ViewState) (clipIds : List String) : ViewState :=
  { s with selectedClipIds :=
      s.selectedClipIds ++ clipIds.filter (fun x => x ∉ s.selectedClipIds) }

/-- The ids picked by `selectRange(startMs, endMs, clips)`: entries with
`clip.startMs < hi && clip.startMs + clip.durationMs > lo` where
`lo = min(startMs, endMs)`, `hi = max(startMs, endMs)`. -/
def selectRangeIds (startMs endMs : ℚ) (clips : ClipMap) : List String :=
  let lo := min startMs endMs
  let hi := max startMs endMs
  (clips.filter (fun e =>
    decide (e.2.startMs < hi) && decide (lo < e.2.startMs + e.2.durationMs))).map
    (fun e => e.1)

/-- `selectRange(startMs, endMs, clips)`: replace the selection. -/
def selectRangeAct (s : ViewState) (startMs endMs : ℚ) (clips : ClipMap) : ViewState :=
  { s with selectedClipIds := selectRangeIds startMs endMs clips }

/-- `clearSelection()`. -/
def clearSelection (s : ViewState) : ViewState := { s with selectedClipIds := [] }

-- ============================================================
-- Preview synchronizer (src/components/SettingsPanel.tsx, PreviewPlayer)
-- ============================================================

/-- The containment test of `findClipAtTime`:
`playheadMs >= clip.startMs && playheadMs < clip.startMs + clip.durationMs`. -/
def covers (c : Clip) (t : ℚ) : Bool :=
  decide (c.startMs ≤ t) && decide (t < c.startMs + c.durationMs)

/-- `findClipAtTime(clips, trackClipIds, playheadMs)`: scan the track's clip
ids in order, skip missing ids, return the first clip covering the playhead. -/
def findClipAtTime (clips : ClipMap) (trackClipIds : List String)
    (playheadMs : ℚ) : Option Clip :=
  match trackClipIds with
  | [] => none
  | cid :: rest =>
    match lookupClip clips cid with
    | none => findClipAtTime clips rest playheadMs
    | some clip =>
      if covers clip playheadMs then some clip
      else findClipAtTime clips rest playheadMs

/-- The media asset data the synchronizer consults (`asset.meta.proxyUri`
presence decides proxy preference). -/
structure Asset where
  assetId : String
  hasProxy : Bool
deriving DecidableEq, Repr

/-- `projectFile.assets.find(a => a.assetId === assetId)`. -/
def findAsset (assets : List Asset) (assetId : String) : Option Asset :=
  assets.find? (fun a => a.assetId = assetId)

/-- `getAssetMediaUrl(assetId, preferProxy)`. -/
def getAssetMediaUrl (assetId : String) (preferProxy : Bool) : String :=
  "media://localhost/" ++ assetId ++ (if preferProxy then "?proxy=1" else "")

/-- The preview surface's transient state: `isBlack`, `currentClipRef`,
`currentSrc`. -/
structure SyncState where
  isBlack : Bool
  currentClip : Option String
  currentSrc : String
deriving DecidableEq, Repr

/-- Initial surface state: black, no active clip, empty source. -/
def initSyncState : SyncState :=
  { isBlack := true, currentClip := none, currentSrc := "" }

/-- `syncVideoToPlayhead(ms)` acting on the surface state: resolve the active
clip on the video track; on no match black out and clear the active media
reference (the source is reset only when a reference was active, as in the
code); on a match un-black and, when the clip changed, switch the source
to that clip's asset url (preferring its proxy).  The `video.currentTime`
nudge applies to the external media element and has no store state here. -/
def syncVideoToPlayhead (clips : ClipMap) (videoTrackClipIds : List String)
    (assets : List Asset) (ms : ℚ) (st : SyncState) : SyncState :=
  match findClipAtTime clips videoTrackClipIds ms with
  | none =>
    if st.currentClip.isSome then
      { isBlack := true, currentClip := none, currentSrc := "" }
    else
      { st with isBlack := true }
  | some clip =>
    if st.currentClip = some clip.clipId then
      { st with isBlack := false }
    else
      let hasProxy := match findAsset assets clip.assetId with
        | some a => a.hasProxy
        | none => false
      { isBlack := false, currentClip := some clip.clipId
        currentSrc := getAssetMediaUrl clip.assetId hasProxy }

/-- One tick of the playback RAF loop, fed the elapsed time `deltaMs`:
`newPlayhead = playheadMs + deltaMs`; at or past the timeline duration the
playhead is clamped via `setPlayhead(durationMs)`, playback pauses and no
further frame is requested; otherwise `setPlayhead(newPlayhead)` and another
frame is requested.  The second component is whether a next tick is
scheduled. -/
def rafTick (durationMs : ℚ) (s : ViewState) (deltaMs : ℚ) : ViewState × Bool :=
  let newPlayhead := s.playheadMs + deltaMs
  if durationMs ≤ newPlayhead then
    (pause (setPlayhead s durationMs), false)
  else
    (setPlayhead s newPlayhead, true)

-- ============================================================
-- Gesture controller (src/components/TimelineView.tsx, ClipBlock)
-- ============================================================

def SNAP_THRESHOLD_PX : ℚ := 8

def SNAP_GRID_MS : ℚ := 100

/-- `snapToGrid(ms)`: grid first (100 ms grid, within the 8px-at-zoom
threshold), else the first snap target in list order within the threshold,
else `ms` unchanged. -/
def snapToGrid (snapTargets : List ℚ) (zoomLevel : ℚ) (ms : ℚ) : ℚ :=
  let msThresh := pixelsToMs SNAP_THRESHOLD_PX zoomLevel
  let gridSnapped := ((jround (ms / SNAP_GRID_MS) : ℤ) : ℚ) * SNAP_GRID_MS
  if |gridSnapped - ms| ≤ msThresh then gridSnapped
  else
    match snapTargets.find? (fun target => decide (|target - ms| ≤ msThresh)) with
    | some target => target
    | none => ms

/-- The `snapTargets` memo of `TimelineView`: every clip's start and end (the
dragged clip included), then every marker's `tMs`. -/
def snapTargetsOf (clips : ClipMap) (markers : List Marker) : List ℚ :=
  (clips.foldr (fun e acc => e.2.startMs :: (e.2.startMs + e.2.durationMs) :: acc) [])
    ++ markers.map (fun m => m.tMs)

/-- The anchor snapshot taken at gesture start: the clip's `startMs`, `inMs`,
`outMs`. -/
structure TrimAnchor where
  startMs : ℚ
  inMs : ℚ
  outMs : ℚ
deriving DecidableEq, Repr

/-- `clamp(x, lo, hi) = max(lo, min(hi, x))`. -/
def clamp (x lo hi : ℚ) : ℚ := max lo (min hi x)

/-- Trim-left provisional `newIn`:
`Math.max(0, Math.min(origOutMs - 100, origInMs + deltaMs))`. -/
def trimLeftNewIn (a : TrimAnchor) (deltaMs : ℚ) : ℚ :=
  max 0 (min (a.outMs - 100) (a.inMs + deltaMs))

/-- Trim-left provisional start: `origStartMs + (newIn - origInMs)`. -/
def trimLeftNewStart (a : TrimAnchor) (deltaMs : ℚ) : ℚ :=
  a.startMs + (trimLeftNewIn a deltaMs - a.inMs)

/-- Trim-left provisional duration: `origOutMs - newIn`. -/
def trimLeftDur (a : TrimAnchor) (deltaMs : ℚ) : ℚ :=
  a.outMs - trimLeftNewIn a deltaMs

/-- Trim-right provisional `newOut`:
`Math.max(origInMs + 100, origOutMs + deltaMs)`. -/
def trimRightNewOut (a : TrimAnchor) (deltaMs : ℚ) : ℚ :=
  max (a.inMs + 100) (a.outMs + deltaMs)

/-- Trim-right leaves the provisional start untouched (`el.style.left` is not
written in the trim-right branch). -/
def trimRightNewStart (a : TrimAnchor) (_deltaMs : ℚ) : ℚ := a.startMs

/-- The gesture modes of `ClipBlock`. -/
inductive DragMode where
  | move
  | trimLeft
  | trimRight
deriving DecidableEq, Repr

/-- A mutation request issued through the command bridge on pointer-up. -/
inductive MutationRequest where
  | moveClip (clipId : String) (startMs : ℤ)
  | trimClip (clipId : String) (inMs : Option ℤ) (outMs : Option ℤ)
deriving DecidableEq, Repr

/-- The requests issued by `ClipBlock`'s `onUp` handler, in call order.
Move: one `timelineMoveClip` with the snapped, rounded start.  Trim-left:
`timelineTrimClip(newIn)` followed by `timelineMoveClip(newStart)` where
`newStart = origStartMs + (Math.round(newIn) - origInMs)`.  Trim-right:
one `timelineTrimClip(newOut)`. -/
def onUpRequests (snapTargets : List ℚ) (zoomLevel : ℚ) (clipId : String)
    (a : TrimAnchor) (mode : DragMode) (deltaMs : ℚ) : List MutationRequest :=
  match mode with
  | .move =>
    let newStart := snapToGrid snapTargets zoomLevel (max 0 (a.startMs + deltaMs))
    [.moveClip clipId (jround newStart)]
  | .trimLeft =>
    let newIn := trimLeftNewIn a deltaMs
    let startDelta := ((jround newIn : ℤ) : ℚ) - a.inMs
    let newStart := a.startMs + startDelta
    [.trimClip clipId (some (jround newIn)) none,
     .moveClip clipId (jround newStart)]
  | .trimRight =>
    let newOut := trimRightNewOut a deltaMs
    [.trimClip clipId none (some (jround newOut))]

-- ============================================================
-- Authoritative project state (src/store/projectStore.ts)
-- ============================================================

/-- The slice of the authoritative Timeline aggregate the claims need. -/
structure TimelineModel where
  clips : ClipMap
  markers : List Marker
deriving DecidableEq, Repr

/-- Combined app state: the authoritative timeline plus the UI-local view
state. -/
structure AppState where
  timeline : TimelineModel
  view : ViewState
deriving DecidableEq, Repr

/-- `refreshProject`: replace the authoritative project snapshot wholesale.
It writes only `projectFile`; the view store is untouched. -/
def refreshProject (fresh : TimelineModel) (s : AppState) : AppState :=
  { s with timeline := fresh }

-- ============================================================
-- Reachability of view-store states
-- ============================================================

/-- The view-store states reachable from the initial state through the
store's actions. -/
inductive ReachableView : ViewState → Prop where
  | init : ReachableView initViewState
  | stepSetPlayhead (s : ViewState) (ms : ℚ) :
      ReachableView s → ReachableView (setPlayhead s ms)
  | stepPlay (s : ViewState) : ReachableView s → ReachableView (play s)
  | stepPause (s : ViewState) : ReachableView s → ReachableView (pause s)
  | stepTogglePlay (s : ViewState) : ReachableView s → ReachableView (togglePlay s)
  | stepSetZoom (s : ViewState) (level : ℚ) :
      ReachableView s → ReachableView (setZoom s level)
  | stepSetScroll (s : ViewState) (ms : ℚ) :
      ReachableView s → ReachableView (setScroll s ms)
  | stepSelectClip (s : ViewState) (cid : Option String) :
      ReachableView s → ReachableView (selectClipAct s cid)
  | stepToggleClip (s : ViewState) (cid : String) :
      ReachableView s → ReachableView (toggleClipAct s cid)
  | stepSelectClips (s : ViewState) (ids : List String) :
      ReachableView s → ReachableView (selectClipsAct s ids)
  | stepAddClips (s : ViewState) (ids : List String) :
      ReachableView s → ReachableView (addClipsAct s ids)
  | stepSelectRange (s : ViewState) (a b : ℚ) (clips : ClipMap) :
      ReachableView s → ReachableView (selectRangeAct s a b clips)
  | stepClearSelection (s : ViewState) :
      ReachableView s → ReachableView (clearSelection s)

-- ============================================================
-- Concrete fixtures (spec §8 and the view-store test suite)
-- ============================================================

def clipV1 : Clip := ⟨"v1", "asset_v1", "trk_v", 0, 5000, 0, 5000⟩

def clipV2 : Clip := ⟨"v2", "asset_v2", "trk_v", 5000, 3000, 0, 3000⟩

def clipA1 : Clip := ⟨"a1", "asset_a1", "trk_a", 1000, 4000, 0, 4000⟩

def clipT1 : Clip := ⟨"t1", "asset_t1", "trk_t", 6000, 2000, 0, 2000⟩

def clipV3 : Clip := ⟨"v3", "asset_v3", "trk_v", 10000, 2000, 0, 2000⟩

/-- The §8 clip fixture `v1=[0,5000)`, `v2=[5000,8000)`, `a1=[1000,5000)`,
`t1=[6000,8000)`, `v3=[10000,12000)`. -/
def fixtureClips : ClipMap :=
  [("v1", clipV1), ("v2", clipV2), ("a1", clipA1), ("t1", clipT1), ("v3", clipV3)]

/-- The §8 end-to-end scenario marker at 7000 ms. -/
def marker7000 : Marker := ⟨"m1", 7000, "beat"⟩

/-- The §8 end-to-end scenario: a single clip `[0,5000)` on the timeline. -/
def moveFixtureClips : ClipMap := [("v1", clipV1)]

/-- App state with clip `c1` in the timeline and selected, before an
authoritative refresh. -/
def c7State : AppState :=
  { timeline := { clips := [("c1", ⟨"c1", "asset_c1", "trk_v", 0, 5000, 0, 5000⟩)]
                  markers := [] }
    view := { initViewState with selectedClipIds := ["c1"] } }

/-- An authoritative snapshot that no longer contains any clip. -/
def emptyTimeline : TimelineModel := { clips := [], markers := [] }

-- ============================================================
-- Helper lemmas
-- ============================================================

lemma jround_eq {q : ℚ} {z : ℤ} (h1 : (z : ℚ) ≤ q + 1 / 2) (h2 : q + 1 / 2 < z + 1) :
    jround q = z := by
  rw [jround, Int.floor_eq_iff]
  exact ⟨h1, by exact_mod_cast h2⟩

lemma jround_intCast (z : ℤ) : jround ((z : ℤ) : ℚ) = z :=
  jround_eq (by linarith) (by norm_num)

lemma jround_natCast (n : ℕ) : jround ((n : ℕ) : ℚ) = (n : ℤ) := by
  have h := jround_intCast (n : ℤ)
  simpa using h

lemma jround_nonpos {q : ℚ} (h : q < 0) : jround q ≤ 0 := by
  have : jround q < 1 := by
    rw [jround, Int.floor_lt]
    push_cast
    linarith
  omega

/-- `find?` returns the head of the first satisfying suffix. -/
lemma find?_append_first {α : Type} (p : α → Bool) (pre : List α) (c : α)
    (post : List α) (hpre : ∀ x ∈ pre, p x = false) (hc : p c = true) :
    (pre ++ c :: post).find? p = some c := by
  induction pre with
  | nil => simpa [List.find?_cons_of_pos] using List.find?_cons_of_pos post hc
  | cons a rest ih =>
    have ha : p a = false := hpre a (by simp)
    have hrest : ∀ x ∈ rest, p x = false := fun x hx => hpre x (by simp [hx])
    simpa [List.cons_append, List.find?_cons_of_neg, ha] using ih hrest

/-- The scan of `findClipAtTime` is `find?` over the resolved clip list. -/
lemma findClipAtTime_eq_find? (clips : ClipMap) (t : ℚ) :
    ∀ order : List String,
      findClipAtTime clips order t
        = (order.filterMap (lookupClip clips)).find? (fun c => covers c t)
  | [] => rfl
  | cid :: rest => by
    cases h : lookupClip clips cid with
    | none =>
      simp only [findClipAtTime, h, List.filterMap_cons_none h]
      exact findClipAtTime_eq_find? clips t rest
    | some c =>
      simp only [findClipAtTime, h, List.filterMap_cons_some h]
      cases hc : covers c t with
      | true =>
        rw [if_pos rfl]
        exact (List.find?_cons_of_pos (List.filterMap (lookupClip clips) rest) hc).symm
      | false =>
        rw [if_neg (by simp)]
        exact (findClipAtTime_eq_find? clips t rest).trans
          (List.find?_cons_of_neg (List.filterMap (lookupClip clips) rest)
            (by simp [hc])).symm

/-- Membership characterization of the ids picked by `selectRange`. -/
lemma selectRangeIds_mem (a b : ℚ) (clips : ClipMap) (cid : String) :
    cid ∈ selectRangeIds a b clips ↔
      ∃ c : Clip, (cid, c) ∈ clips ∧
        c.startMs < max a b ∧ min a b < c.startMs + c.durationMs := by
  simp only [selectRangeIds, List.mem_map, List.mem_filter]
  constructor
  · rintro ⟨⟨cid', c⟩, ⟨hmem, hcond⟩, rfl⟩
    simp only [Bool.and_eq_true, decide_eq_true_eq] at hcond
    exact ⟨c, hmem, hcond.1, hcond.2⟩
  · rintro ⟨c, hmem, h1, h2⟩
    exact ⟨(cid, c), ⟨hmem, by simp [h1, h2]⟩, rfl⟩

-- ============================================================
-- C9 — geometry round-trip
-- ============================================================

/-- C9: for every ms value `x ≥ 0` and every supported zoom level
`z ∈ {50, 100, 200}`, `pixelsToMs(msToPixels(x, z), z)` equals `x` (hence is
within 1 ms of `x`): the two conversions are exact inverses. -/
theorem c9_pixels_ms_roundtrip (x : ℚ) (_hx : 0 ≤ x) (z : ℚ)
    (hz : z = 50 ∨ z = 100 ∨ z = 200) :
    pixelsToMs (msToPixels x z) z = x ∧ |pixelsToMs (msToPixels x z) z - x| < 1 := by
  have heq : pixelsToMs (msToPixels x z) z = x := by
    rcases hz with rfl | rfl | rfl <;>
      · rw [msToPixels, pixelsToMs]
        ring
  exact ⟨heq, by rw [heq]; simp⟩

/-- C9 witness: the round trip at `x = 3456`, `z = 100`. -/
theorem c9_witness :
    (0 : ℚ) ≤ 3456 ∧ ((100 : ℚ) = 50 ∨ (100 : ℚ) = 100 ∨ (100 : ℚ) = 200) ∧
      pixelsToMs (msToPixels 3456 100) 100 = 3456 :=
  ⟨by norm_num, by norm_num,
    (c9_pixels_ms_roundtrip 3456 (by norm_num) 100 (by norm_num)).1⟩

-- ============================================================
-- C8 — togglePlay
-- ============================================================

/-- C8 counterexample: `togglePlay` is not idempotent — starting from the
initial state, one application sets the play flag while two applications
reset it, so applying it twice does not agree with applying it once (it is
an involution). -/
theorem c8_counterexample :
    (togglePlay (togglePlay initViewState)).isPlaying = false
  ∧ (togglePlay initViewState).isPlaying = true := by
  constructor <;> rfl

/-- C8 (amended): `togglePlay` is an involution that purely flips the
`isPlaying` flag: it leaves `playheadMs`, `zoomLevel`, `scrollLeftMs` and the
selection unchanged, and resolves no clip. -/
theorem c8_toggle_play_flips (s : ViewState) :
    togglePlay (togglePlay s) = s
  ∧ (togglePlay s).isPlaying = !s.isPlaying
  ∧ (togglePlay s).playheadMs = s.playheadMs
  ∧ (togglePlay s).zoomLevel = s.zoomLevel
  ∧ (togglePlay s).scrollLeftMs = s.scrollLeftMs
  ∧ (togglePlay s).selectedClipIds = s.selectedClipIds := by
  refine ⟨?_, rfl, rfl, rfl, rfl, rfl⟩
  simp [togglePlay]

-- ============================================================
-- C7 — selection across authoritative updates
-- ============================================================

/-- C7 counterexample: replacing the Timeline with a snapshot that no longer
contains the selected clip `c1` leaves `c1` in the selection set — the
selected id now refers to no clip in the new clip map, so no pruning
happens. -/
theorem c7_counterexample :
    "c1" ∈ (refreshProject emptyTimeline c7State).view.selectedClipIds
  ∧ lookupClip (refreshProject emptyTimeline c7State).timeline.clips "c1" = none := by
  constructor
  · simp [refreshProject, c7State]
  · simp [refreshProject, emptyTimeline, lookupClip]

/-- C7 (amended): replacing the authoritative Timeline by a new snapshot
leaves the UI view state — the selection included — completely unchanged;
stale selected ids are not pruned. -/
theorem c7_refresh_keeps_selection (fresh : TimelineModel) (s : AppState) :
    (refreshProject fresh s).view = s.view
  ∧ (refreshProject fresh s).timeline = fresh :=
  ⟨rfl, rfl⟩

-- ============================================================
-- C3 — trim clamping
-- ============================================================

/-- C3: trim-left yields `newIn = clamp(inMs + deltaMs, 0, outMs - 100)`
(clamping to exactly `outMs - 100` past the floor, never below 0) while the
clip's absolute end time stays fixed because `startMs` shifts by
`(newIn - inMs)`; trim-right yields `newOut = max(inMs + 100, outMs + deltaMs)`
(clamping to exactly `inMs + 100` from below) and leaves `startMs`
unaffected. -/
theorem c3_trim_clamps (a : TrimAnchor) (d : ℚ) :
    trimLeftNewIn a d = clamp (a.inMs + d) 0 (a.outMs - 100)
  ∧ 0 ≤ trimLeftNewIn a d
  ∧ (0 ≤ a.outMs - 100 → a.outMs - 100 ≤ a.inMs + d →
      trimLeftNewIn a d = a.outMs - 100)
  ∧ (0 ≤ a.inMs + d → a.inMs + d ≤ a.outMs - 100 →
      trimLeftNewIn a d = a.inMs + d)
  ∧ trimLeftNewStart a d = a.startMs + (trimLeftNewIn a d - a.inMs)
  ∧ trimLeftNewStart a d + trimLeftDur a d = a.startMs + (a.outMs - a.inMs)
  ∧ (a.outMs + d ≤ a.inMs + 100 → trimRightNewOut a d = a.inMs + 100)
  ∧ (a.inMs + 100 ≤ a.outMs + d → trimRightNewOut a d = a.outMs + d)
  ∧ trimRightNewStart a d = a.startMs := by
  refine ⟨rfl, le_max_left _ _, ?_, ?_, rfl, ?_, ?_, ?_, rfl⟩
  · intro h0 hd
    rw [trimLeftNewIn, min_eq_left hd, max_eq_right h0]
  · intro h0 hd
    rw [trimLeftNewIn, min_eq_right hd, max_eq_right h0]
  · rw [trimLeftNewStart, trimLeftDur]
    ring
  · intro h
    rw [trimRightNewOut, max_eq_left h]
  · intro h
    rw [trimRightNewOut, max_eq_right h]

/-- C3 witness: anchor `(startMs 2000, inMs 500, outMs 3000)` dragged right
by 5000 ms clamps `newIn` to `outMs - 100 = 2900`; dragged left by 5000 ms
the trim-right handle clamps `newOut` to `inMs + 100 = 600`. -/
theorem c3_witness :
    (0 : ℚ) ≤ 3000 - 100 ∧ (3000 : ℚ) - 100 ≤ 500 + 5000
  ∧ trimLeftNewIn ⟨2000, 500, 3000⟩ 5000 = 3000 - 100
  ∧ (3000 : ℚ) + (-5000) ≤ 500 + 100
  ∧ trimRightNewOut ⟨2000, 500, 3000⟩ (-5000) = 500 + 100 :=
  ⟨by norm_num, by norm_num,
    (c3_trim_clamps ⟨2000, 500, 3000⟩ 5000).2.2.1 (by norm_num) (by norm_num),
    by norm_num,
    (c3_trim_clamps ⟨2000, 500, 3000⟩ (-5000)).2.2.2.2.2.2.1 (by norm_num)⟩

-- ============================================================
-- C5 — selectRange
-- ============================================================

/-- C5 counterexample: for the degenerate pair `(3000, 3000)` the range
`[min, max) = [3000, 3000)` is empty (its upper bound does not exceed its
lower bound), so no clip's half-open interval overlaps it — yet
`selectRange` selects the straddling clip `v1`. -/
theorem c5_counterexample :
    "v1" ∈ selectRangeIds 3000 3000 fixtureClips
  ∧ max (3000 : ℚ) 3000 ≤ min (3000 : ℚ) 3000 := by
  constructor
  · simp only [selectRangeIds, fixtureClips, List.filter, List.map,
      clipV1, clipV2, clipA1, clipT1, clipV3]
    norm_num
  · rw [min_self, max_self]

/-- C5 (amended): `selectRange` selects exactly the clips with
`startMs < hi ∧ lo < startMs + durationMs` (`lo = min`, `hi = max`), which
coincides with nonempty overlap of `[startMs, startMs + durationMs)` and
`[lo, hi)` whenever `lo < hi` and the clip duration is positive (a clip
straddling a degenerate `lo = hi` point is still selected); on the §8
fixture: `(500,4500) ↦ {v1,a1}`, `(0,9000) ↦ {v1,v2,a1,t1}` (not `v3`),
reversed `(8000,500)` equals `(500,8000)`, `(0,5000)` excludes the clip
starting exactly at 5000, and an empty clip map yields an empty selection. -/
theorem c5_select_range :
    (∀ (clips : ClipMap) (a b : ℚ) (cid : String),
      cid ∈ selectRangeIds a b clips ↔
        ∃ c : Clip, (cid, c) ∈ clips ∧
          c.startMs < max a b ∧ min a b < c.startMs + c.durationMs)
  ∧ (∀ (a b : ℚ) (c : Clip), 0 < c.durationMs → min a b < max a b →
      ((c.startMs < max a b ∧ min a b < c.startMs + c.durationMs) ↔
        ∃ t : ℚ, min a b ≤ t ∧ t < max a b ∧
          c.startMs ≤ t ∧ t < c.startMs + c.durationMs))
  ∧ selectRangeIds 500 4500 fixtureClips = ["v1", "a1"]
  ∧ selectRangeIds 0 9000 fixtureClips = ["v1", "v2", "a1", "t1"]
  ∧ selectRangeIds 8000 500 fixtureClips = selectRangeIds 500 8000 fixtureClips
  ∧ selectRangeIds 0 5000 fixtureClips = ["v1", "a1"]
  ∧ (∀ a b : ℚ, selectRangeIds a b [] = []) := by
  refine ⟨fun clips a b cid => selectRangeIds_mem a b clips cid,
    ?_, ?_, ?_, ?_, ?_, fun a b => rfl⟩
  · intro a b c hdur hlt
    constructor
    · rintro ⟨h1, h2⟩
      refine ⟨max c.startMs (min a b), le_max_right _ _, ?_, le_max_left _ _, ?_⟩
      · exact max_lt h1 hlt
      · exact max_lt (by linarith) h2
    · rintro ⟨t, ht1, ht2, ht3, ht4⟩
      exact ⟨by linarith, by linarith⟩
  · simp only [selectRangeIds, fixtureClips, List.filter, List.map,
      clipV1, clipV2, clipA1, clipT1, clipV3]
    norm_num
  · simp only [selectRangeIds, fixtureClips, List.filter, List.map,
      clipV1, clipV2, clipA1, clipT1, clipV3]
    norm_num
  · simp only [selectRangeIds]
    rw [min_comm, max_comm]
  · simp only [selectRangeIds, fixtureClips, List.filter, List.map,
      clipV1, clipV2, clipA1, clipT1, clipV3]
    norm_num

/-- C5 witness: clip `a1 = [1000, 5000)` has positive duration, the range
`(500, 4500)` is nondegenerate, and the overlap equivalence instantiates to
an actual overlap witness. -/
theorem c5_witness :
    (0 : ℚ) < clipA1.durationMs ∧ min (500 : ℚ) 4500 < max (500 : ℚ) 4500
  ∧ ((clipA1.startMs < max (500 : ℚ) 4500 ∧
        min (500 : ℚ) 4500 < clipA1.startMs + clipA1.durationMs) ↔
      ∃ t : ℚ, min (500 : ℚ) 4500 ≤ t ∧ t < max (500 : ℚ) 4500 ∧
        clipA1.startMs ≤ t ∧ t < clipA1.startMs + clipA1.durationMs) :=
  ⟨by norm_num [clipA1], by norm_num,
    c5_select_range.2.1 500 4500 clipA1 (by norm_num [clipA1]) (by norm_num)⟩

-- ============================================================
-- C10 — playhead invariant
-- ============================================================

/-- C10: `setPlayhead` stores `max(0, round(ms))` (0 for every negative
input), every other view-store operation leaves `playheadMs` unchanged, and
therefore in every reachable view state the stored playhead is a
non-negative integer. -/
theorem c10_playhead_nonneg_integer :
    (∀ (s : ViewState) (ms : ℚ),
      (setPlayhead s ms).playheadMs = ((max 0 (jround ms) : ℤ) : ℚ))
  ∧ (∀ (s : ViewState) (ms : ℚ), ms < 0 → (setPlayhead s ms).playheadMs = 0)
  ∧ (∀ s : ViewState, (play s).playheadMs = s.playheadMs)
  ∧ (∀ s : ViewState, (pause s).playheadMs = s.playheadMs)
  ∧ (∀ s : ViewState, (togglePlay s).playheadMs = s.playheadMs)
  ∧ (∀ (s : ViewState) (z : ℚ), (setZoom s z).playheadMs = s.playheadMs)
  ∧ (∀ (s : ViewState) (ms : ℚ), (setScroll s ms).playheadMs = s.playheadMs)
  ∧ (∀ (s : ViewState) (cid : Option String),
      (selectClipAct s cid).playheadMs = s.playheadMs)
  ∧ (∀ (s : ViewState) (cid : String),
      (toggleClipAct s cid).playheadMs = s.playheadMs)
  ∧ (∀ (s : ViewState) (ids : List String),
      (selectClipsAct s ids).playheadMs = s.playheadMs)
  ∧ (∀ (s : ViewState) (ids : List String),
      (addClipsAct s ids).playheadMs = s.playheadMs)
  ∧ (∀ (s : ViewState) (a b : ℚ) (clips : ClipMap),
      (selectRangeAct s a b clips).playheadMs = s.playheadMs)
  ∧ (∀ s : ViewState, (clearSelection s).playheadMs = s.playheadMs)
  ∧ (∀ s : ViewState, ReachableView s → ∃ n : ℕ, s.playheadMs = (n : ℚ)) := by
  have hstore : ∀ (s : ViewState) (ms : ℚ),
      (setPlayhead s ms).playheadMs = ((max 0 (jround ms) : ℤ) : ℚ) :=
    fun s ms => rfl
  have hint : ∀ (s : ViewState) (ms : ℚ), ∃ n : ℕ, (setPlayhead s ms).playheadMs = (n : ℚ) := by
    intro s ms
    refine ⟨(max 0 (jround ms)).toNat, ?_⟩
    rw [hstore]
    norm_cast
    exact (Int.toNat_of_nonneg (le_max_left _ _)).symm
  refine ⟨hstore, ?_, fun s => rfl, fun s => rfl, fun s => rfl, fun s z => rfl,
    fun s ms => rfl, fun s cid => rfl, fun s cid => rfl, fun s ids => rfl,
    fun s ids => rfl, fun s a b clips => rfl, fun s => rfl, ?_⟩
  · intro s ms hneg
    rw [hstore]
    have h0 : jround ms ≤ 0 := jround_nonpos hneg
    rw [max_eq_left h0]
    norm_num
  · intro s hreach
    induction hreach with
    | init => exact ⟨0, rfl⟩
    | stepSetPlayhead s ms _ _ => exact hint s ms
    | stepPlay s _ ih => exact ih
    | stepPause s _ ih => exact ih
    | stepTogglePlay s _ ih => exact ih
    | stepSetZoom s level _ ih => exact ih
    | stepSetScroll s ms _ ih => exact ih
    | stepSelectClip s cid _ ih => exact ih
    | stepToggleClip s cid _ ih => exact ih
    | stepSelectClips s ids _ ih => exact ih
    | stepAddClips s ids _ ih => exact ih
    | stepSelectRange s a b clips _ ih => exact ih
    | stepClearSelection s _ ih => exact ih

/-- C10 witness: a negative seek to `-7/2` ms stores exactly 0, and a state
reached by seeking to `2.6` ms then toggling play holds a natural-number
playhead. -/
theorem c10_witness :
    (- 7 / 2 : ℚ) < 0
  ∧ (setPlayhead initViewState (- 7 / 2)).playheadMs = 0
  ∧ ∃ n : ℕ, (togglePlay (setPlayhead initViewState (13 / 5))).playheadMs = (n : ℚ) :=
  ⟨by norm_num,
    c10_playhead_nonneg_integer.2.1 initViewState (- 7 / 2) (by norm_num),
    c10_playhead_nonneg_integer.2.2.2.2.2.2.2.2.2.2.2.2.2 _
      (ReachableView.stepTogglePlay _
        (ReachableView.stepSetPlayhead _ _ ReachableView.init))⟩

-- ============================================================
-- C4 — snapping
-- ============================================================

/-- C4 counterexample: at zoom 200 the threshold is 40 ms; for `ms = 6950`
with targets `[6990, 6915]` the grid value 7000 is 50 ms away (no grid
match), both targets are within the threshold, the nearest is 6915 — yet
`snapToGrid` returns 6990, the first target in list order, not the
nearest. -/
theorem c4_counterexample :
    snapToGrid [6990, 6915] 200 6950 = 6990
  ∧ |(6915 : ℚ) - 6950| ≤ pixelsToMs SNAP_THRESHOLD_PX 200
  ∧ |(6915 : ℚ) - 6950| < |(6990 : ℚ) - 6950| := by
  refine ⟨?_, by norm_num [pixelsToMs, SNAP_THRESHOLD_PX, abs_sub_le_iff], ?_⟩
  · have hg : jround ((139 : ℚ) / 2) = 70 := jround_eq (by norm_num) (by norm_num)
    simp only [snapToGrid, pixelsToMs, SNAP_THRESHOLD_PX, SNAP_GRID_MS, List.find?]
    rw [show (6950 : ℚ) / 100 = 139 / 2 by norm_num, hg]
    norm_num [abs_sub_le_iff]
  · rw [show |(6915 : ℚ) - 6950| = 35 by rw [abs_sub_comm]; norm_num [abs_of_nonneg],
      show |(6990 : ℚ) - 6950| = 40 by norm_num [abs_of_nonneg]]
    norm_num

/-- C4 (amended): `snapToGrid` returns the 100 ms grid-rounded value when it
lies within the 8px-at-zoom threshold; otherwise the first snap target in
target-list order (every clip's start and end, then every marker's `tMs`)
within the threshold — not necessarily the nearest; otherwise `ms`
unchanged.  Grid is checked before targets, so when both match the grid
wins.  A provisional 6950 ms with the 80 ms zoom-100 threshold and a marker
at 7000 snaps to exactly 7000. -/
theorem c4_snap_grid_then_first_target (targets : List ℚ) (zoom ms : ℚ) :
    (|((jround (ms / SNAP_GRID_MS) : ℤ) : ℚ) * SNAP_GRID_MS - ms|
        ≤ pixelsToMs SNAP_THRESHOLD_PX zoom →
      snapToGrid targets zoom ms
        = ((jround (ms / SNAP_GRID_MS) : ℤ) : ℚ) * SNAP_GRID_MS)
  ∧ (¬ |((jround (ms / SNAP_GRID_MS) : ℤ) : ℚ) * SNAP_GRID_MS - ms|
        ≤ pixelsToMs SNAP_THRESHOLD_PX zoom →
      ∀ (pre : List ℚ) (t : ℚ) (post : List ℚ), targets = pre ++ t :: post →
        (∀ t' ∈ pre, ¬ |t' - ms| ≤ pixelsToMs SNAP_THRESHOLD_PX zoom) →
        |t - ms| ≤ pixelsToMs SNAP_THRESHOLD_PX zoom →
        snapToGrid targets zoom ms = t)
  ∧ (¬ |((jround (ms / SNAP_GRID_MS) : ℤ) : ℚ) * SNAP_GRID_MS - ms|
        ≤ pixelsToMs SNAP_THRESHOLD_PX zoom →
      (∀ t ∈ targets, ¬ |t - ms| ≤ pixelsToMs SNAP_THRESHOLD_PX zoom) →
      snapToGrid targets zoom ms = ms)
  ∧ snapToGrid (snapTargetsOf moveFixtureClips [marker7000]) 100 6950 = 7000 := by
  refine ⟨?_, ?_, ?_, ?_⟩
  · intro h
    simp only [snapToGrid]
    rw [if_pos h]
  · intro h pre t post htargets hpre ht
    simp only [snapToGrid]
    rw [if_neg h, htargets,
      find?_append_first _ pre t post
        (fun x hx => by simpa using hpre x hx) (by simpa using ht)]
  · intro h hall
    simp only [snapToGrid]
    rw [if_neg h, List.find?_eq_none.mpr (fun x hx => by simpa using hall x hx)]
  · have hg : jround ((139 : ℚ) / 2) = 70 := jround_eq (by norm_num) (by norm_num)
    simp only [snapToGrid, snapTargetsOf, moveFixtureClips, marker7000, clipV1,
      pixelsToMs, SNAP_THRESHOLD_PX, SNAP_GRID_MS]
    rw [show (6950 : ℚ) / 100 = 139 / 2 by norm_num, hg]
    norm_num [abs_sub_le_iff]

/-- C4 witness: at zoom 100 a provisional 7000 ms is exactly on the grid and
snaps to the grid value. -/
theorem c4_witness :
    |((jround ((7000 : ℚ) / SNAP_GRID_MS) : ℤ) : ℚ) * SNAP_GRID_MS - 7000|
      ≤ pixelsToMs SNAP_THRESHOLD_PX 100
  ∧ snapToGrid [] 100 7000
      = ((jround ((7000 : ℚ) / SNAP_GRID_MS) : ℤ) : ℚ) * SNAP_GRID_MS := by
  have hg : jround ((7000 : ℚ) / SNAP_GRID_MS) = 70 :=
    jround_eq (by norm_num [SNAP_GRID_MS]) (by norm_num [SNAP_GRID_MS])
  have h : |((jround ((7000 : ℚ) / SNAP_GRID_MS) : ℤ) : ℚ) * SNAP_GRID_MS - 7000|
      ≤ pixelsToMs SNAP_THRESHOLD_PX 100 := by
    rw [hg]
    norm_num [pixelsToMs, SNAP_THRESHOLD_PX, SNAP_GRID_MS]
  exact ⟨h, (c4_snap_grid_then_first_target [] 100 7000).1 h⟩

-- ============================================================
-- C6 — requests on pointer-up
-- ============================================================

/-- C6 counterexample: a trim-left gesture with pointer delta 0 produces no
net change (the computed `newIn` equals the anchor's `inMs` and the start
does not shift), yet `onUp` issues two mutation requests — a trim and an
unconditional follow-up move. -/
theorem c6_counterexample :
    onUpRequests [] 100 "c1" ⟨1000, 0, 5000⟩ DragMode.trimLeft 0
      = [MutationRequest.trimClip "c1" (some 0) none,
         MutationRequest.moveClip "c1" 1000]
  ∧ trimLeftNewIn ⟨1000, 0, 5000⟩ 0 = (⟨1000, 0, 5000⟩ : TrimAnchor).inMs
  ∧ (onUpRequests [] 100 "c1" ⟨1000, 0, 5000⟩ DragMode.trimLeft 0).length = 2 := by
  have hin : trimLeftNewIn ⟨1000, 0, 5000⟩ 0 = 0 := by
    rw [trimLeftNewIn]
    norm_num
  have h0 : jround (0 : ℚ) = 0 := by
    have := jround_intCast 0
    simpa using this
  refine ⟨?_, by rw [hin], by simp [onUpRequests]⟩
  simp only [onUpRequests, hin, h0]
  norm_num
  exact jround_eq (by norm_num) (by norm_num)

/-- C6 (amended): every pointer-up issues its requests unconditionally —
move: exactly one move request with the snapped, rounded start; trim-left:
a trim request followed always by a move request (even when the start did
not shift); trim-right: exactly one trim request.  A gesture with no net
change still issues requests: there is no no-op suppression. -/
theorem c6_onup_requests (targets : List ℚ) (zoom : ℚ) (cid : String)
    (a : TrimAnchor) (d : ℚ) :
    onUpRequests targets zoom cid a DragMode.move d
      = [MutationRequest.moveClip cid
          (jround (snapToGrid targets zoom (max 0 (a.startMs + d))))]
  ∧ onUpRequests targets zoom cid a DragMode.trimLeft d
      = [MutationRequest.trimClip cid (some (jround (trimLeftNewIn a d))) none,
         MutationRequest.moveClip cid
          (jround (a.startMs + (((jround (trimLeftNewIn a d) : ℤ) : ℚ) - a.inMs)))]
  ∧ onUpRequests targets zoom cid a DragMode.trimRight d
      = [MutationRequest.trimClip cid none (some (jround (trimRightNewOut a d)))]
  ∧ (∀ mode : DragMode,
      (onUpRequests targets zoom cid a mode d).length
        = match mode with
          | DragMode.trimLeft => 2
          | _ => 1) := by
  refine ⟨rfl, rfl, rfl, ?_⟩
  intro mode
  cases mode <;> rfl

-- ============================================================
-- C2 — playback tick
-- ============================================================

/-- C2 counterexample: a tick of 0.4 ms from playhead 0 stores 0 (the store
rounds via `Math.round`), while advancing by exactly the elapsed time would
give 0.4 — the two differ since `0 < 2/5`.  So the playhead does not advance
by exactly the elapsed time on fractional ticks. -/
theorem c2_counterexample :
    (rafTick 10000 initViewState (2 / 5)).1.playheadMs = 0
  ∧ initViewState.playheadMs + 2 / 5 = 2 / 5
  ∧ (0 : ℚ) < 2 / 5 := by
  have h0 : jround ((2 : ℚ) / 5) = 0 := jround_eq (by norm_num) (by norm_num)
  refine ⟨?_, by norm_num [initViewState], by norm_num⟩
  simp only [rafTick, initViewState, setPlayhead]
  norm_num [h0, max_self]

/-- C2 (amended): each playback tick stores
`max(0, round(playheadMs + elapsed))` — exactly `playheadMs + elapsed`
whenever the previous playhead and the elapsed time are integers with a
non-negative sum — and keeps playing with another tick scheduled; when the
pre-rounding advanced value reaches or exceeds the timeline's derived total
duration, the playhead is stored via `setPlayhead(duration)` (so exactly the
duration whenever the duration is a natural number), the play flag is
cleared and no further tick is scheduled. -/
theorem c2_raf_tick_clamps (dur : ℚ) (s : ViewState) (delta : ℚ) :
    (s.playheadMs + delta < dur →
      (rafTick dur s delta).1.playheadMs
          = ((max 0 (jround (s.playheadMs + delta)) : ℤ) : ℚ)
      ∧ (rafTick dur s delta).1.isPlaying = s.isPlaying
      ∧ (rafTick dur s delta).2 = true)
  ∧ (dur ≤ s.playheadMs + delta →
      (rafTick dur s delta).1.playheadMs = ((max 0 (jround dur) : ℤ) : ℚ)
      ∧ (rafTick dur s delta).1.isPlaying = false
      ∧ (rafTick dur s delta).2 = false)
  ∧ (∀ n : ℕ, dur = (n : ℚ) → dur ≤ s.playheadMs + delta →
      (rafTick dur s delta).1.playheadMs = dur)
  ∧ (∀ m z : ℤ, s.playheadMs = (m : ℚ) → delta = (z : ℚ) →
      0 ≤ s.playheadMs + delta → s.playheadMs + delta < dur →
      (rafTick dur s delta).1.playheadMs = s.playheadMs + delta) := by
  refine ⟨?_, ?_, ?_, ?_⟩
  · intro h
    simp only [rafTick]
    rw [if_neg (not_le.mpr h)]
    exact ⟨rfl, rfl, rfl⟩
  · intro h
    simp only [rafTick]
    rw [if_pos h]
    exact ⟨rfl, rfl, rfl⟩
  · intro n hn h
    simp only [rafTick]
    rw [if_pos h]
    show ((max 0 (jround dur) : ℤ) : ℚ) = dur
    rw [hn, jround_natCast, max_eq_right (Int.ofNat_nonneg n)]
    norm_num
  · intro m z hm hz h0 hlt
    simp only [rafTick]
    rw [if_neg (not_le.mpr hlt)]
    show ((max 0 (jround (s.playheadMs + delta)) : ℤ) : ℚ) = s.playheadMs + delta
    rw [hm, hz, show ((m : ℚ) + (z : ℚ)) = ((m + z : ℤ) : ℚ) by push_cast; ring,
      jround_intCast]
    have hmz : 0 ≤ m + z := by
      have : (0 : ℚ) ≤ ((m + z : ℤ) : ℚ) := by
        rw [hm, hz] at h0
        push_cast
        linarith
      exact_mod_cast this
    rw [max_eq_right hmz]

/-- C2 witness: a 2000 ms tick against a 1000 ms timeline reaches the end —
the playhead is clamped to exactly the duration, playback stops and no next
tick is scheduled. -/
theorem c2_witness :
    (1000 : ℚ) ≤ initViewState.playheadMs + 2000
  ∧ (rafTick 1000 initViewState 2000).1.playheadMs = 1000
  ∧ (rafTick 1000 initViewState 2000).1.isPlaying = false
  ∧ (rafTick 1000 initViewState 2000).2 = false := by
  have h : (1000 : ℚ) ≤ initViewState.playheadMs + 2000 := by
    norm_num [initViewState]
  exact ⟨h,
    (c2_raf_tick_clamps 1000 initViewState 2000).2.2.1 1000 (by norm_num) h,
    ((c2_raf_tick_clamps 1000 initViewState 2000).2.1 h).2.1,
    ((c2_raf_tick_clamps 1000 initViewState 2000).2.1 h).2.2⟩

-- ============================================================
-- C1 — preview clip resolution
-- ============================================================

/-- C1: `findClipAtTime` scans the designated video track's clip ids in
track order and returns the first clip whose half-open interval
`[startMs, startMs + durationMs)` contains the playhead: any returned clip
contains the playhead, a playhead exactly at a clip's `startMs` resolves to
that clip when no earlier clip in track order covers it, a playhead exactly
at `startMs + durationMs` never resolves to that clip, and when no clip on
the track covers the playhead the surface is blacked out and the active
media reference is cleared. -/
theorem c1_preview_resolution (clips : ClipMap) (order : List String) (t : ℚ)
    (assets : List Asset) (st : SyncState) :
    findClipAtTime clips order t
      = (order.filterMap (lookupClip clips)).find? (fun c => covers c t)
  ∧ (∀ c : Clip, findClipAtTime clips order t = some c →
      c.startMs ≤ t ∧ t < c.startMs + c.durationMs)
  ∧ (∀ (pre : List Clip) (c : Clip) (post : List Clip),
      order.filterMap (lookupClip clips) = pre ++ c :: post →
      (∀ c' ∈ pre, covers c' c.startMs = false) → 0 < c.durationMs →
      findClipAtTime clips order c.startMs = some c)
  ∧ (∀ c : Clip, findClipAtTime clips order (c.startMs + c.durationMs) ≠ some c)
  ∧ (findClipAtTime clips order t = none ↔
      ∀ c ∈ order.filterMap (lookupClip clips), covers c t = false)
  ∧ (findClipAtTime clips order t = none →
      (syncVideoToPlayhead clips order assets t st).isBlack = true
    ∧ (syncVideoToPlayhead clips order assets t st).currentClip = none
    ∧ (st.currentClip.isSome = true →
        (syncVideoToPlayhead clips order assets t st).currentSrc = "")) := by
  have hchar := findClipAtTime_eq_find? clips t order
  refine ⟨hchar, ?_, ?_, ?_, ?_, ?_⟩
  · intro c hc
    rw [hchar] at hc
    have hcov := List.find?_some hc
    simpa [covers] using hcov
  · intro pre c post heq hpre hdur
    rw [findClipAtTime_eq_find? clips c.startMs order, heq]
    refine find?_append_first _ pre c post (fun x hx => ?_) ?_
    · simpa using hpre x hx
    · simp [covers]
      linarith
  · intro c hc
    rw [findClipAtTime_eq_find? clips _ order] at hc
    have hcov := List.find?_some hc
    simp [covers] at hcov
  · rw [hchar, List.find?_eq_none]
    constructor
    · intro h c hc
      have := h c hc
      simpa using this
    · intro h c hc
      simp [h c hc]
  · intro h
    cases hsc : st.currentClip with
    | none =>
      refine ⟨?_, ?_, ?_⟩ <;> simp [syncVideoToPlayhead, h, hsc]
    | some cid =>
      refine ⟨?_, ?_, ?_⟩ <;> simp [syncVideoToPlayhead, h, hsc]

/-- C1 witness: on the §8 fixture, the video track order `v1, v2, v3`
resolved at `t = 5000 = v2.startMs` (which `v1 = [0, 5000)` does not cover,
half-open) yields exactly clip `v2`. -/
theorem c1_witness :
    ["v1", "v2", "v3"].filterMap (lookupClip fixtureClips)
      = [clipV1] ++ clipV2 :: [clipV3]
  ∧ (∀ c' ∈ [clipV1], covers c' clipV2.startMs = false)
  ∧ (0 : ℚ) < clipV2.durationMs
  ∧ findClipAtTime fixtureClips ["v1", "v2", "v3"] clipV2.startMs = some clipV2 := by
  have hA : ["v1", "v2", "v3"].filterMap (lookupClip fixtureClips)
      = [clipV1] ++ clipV2 :: [clipV3] := by
    simp [List.filterMap, lookupClip, fixtureClips, List.find?]
  have hB : ∀ c' ∈ [clipV1], covers c' clipV2.startMs = false := by
    intro c' hc'
    simp only [List.mem_singleton] at hc'
    subst hc'
    simp [covers, clipV1, clipV2]
  have hC : (0 : ℚ) < clipV2.durationMs := by norm_num [clipV2]
  exact ⟨hA, hB, hC,
    (c1_preview_resolution fixtureClips ["v1", "v2", "v3"] clipV2.startMs []
        initSyncState).2.2.1 [clipV1] clipV2 [clipV3] hA hB hC⟩

end Cutline
